import Mathlib

/-!
Shallow embedding of the dependency manifest `conan/conanfile.py` of the
repository `aos_core_common_cpp`.

The manifest is a single class `AosCommonCpp(ConanFile)` that declares
  * two class attributes, `settings` and `generators`, tuples of strings;
  * a `requirements` method calling `self.requires(ref)` three times;
  * a `build_requirements` method calling `self.tool_requires(ref)` twice.

We embed the mutable `ConanFile` object as an explicit state record
`ManifestState`.  The primitive declaration calls `requires` and
`tool_requires` append the given reference string to the corresponding
declared list.  Because the manifest itself defines no error conditions,
the error type `ConanError` is an empty inductive: the `Except`-typed
signatures record that the method bodies are ordinary Python calls that
would propagate an exception if one were raised, and the emptiness of the
error type expresses that none can be.
-/

/-- State of a `ConanFile` object: its declared settings and generators and
the dependency references accumulated by `requires` / `tool_requires`. -/
structure ManifestState where
  settings : List String
  generators : List String
  declaredRequires : List String
  declaredToolRequires : List String
deriving DecidableEq, Repr

/-- Error type of the manifest's own operations.  The manifest defines no
error conditions, so this type has no constructors. -/
inductive ConanError : Type

instance : DecidableEq ConanError := fun e _ => nomatch e

namespace ConanFile

/-- `self.requires(ref)`: record `ref` as a declared linked requirement. -/
def requires (s : ManifestState) (ref : String) : Except ConanError ManifestState :=
  .ok { s with declaredRequires := s.declaredRequires ++ [ref] }

/-- `self.tool_requires(ref)`: record `ref` as a declared build-tool requirement. -/
def tool_requires (s : ManifestState) (ref : String) : Except ConanError ManifestState :=
  .ok { s with declaredToolRequires := s.declaredToolRequires ++ [ref] }

end ConanFile

namespace AosCommonCpp

/-- `settings = "os", "compiler", "build_type", "arch"` (conanfile.py line 4). -/
def settings : List String := ["os", "compiler", "build_type", "arch"]

/-- `generators = "CMakeToolchain", "CMakeDeps"` (conanfile.py line 5). -/
def generators : List String := ["CMakeToolchain", "CMakeDeps"]

/-- `def requirements(self)` (conanfile.py lines 7-10): three `self.requires`
calls in sequence, each propagating an error were one raised. -/
def requirements (s : ManifestState) : Except ConanError ManifestState :=
  match ConanFile.requires s "gtest/1.14.0" with
  | .error e => .error e
  | .ok s1 =>
    match ConanFile.requires s1 "poco/1.13.2" with
    | .error e => .error e
    | .ok s2 => ConanFile.requires s2 "grpc/1.54.3"

/-- `def build_requirements(self)` (conanfile.py lines 12-14): two
`self.tool_requires` calls in sequence. -/
def build_requirements (s : ManifestState) : Except ConanError ManifestState :=
  match ConanFile.tool_requires s "protobuf/3.21.12" with
  | .error e => .error e
  | .ok s1 => ConanFile.tool_requires s1 "grpc/1.54.3"

end AosCommonCpp

/-- A freshly constructed manifest object: class attributes set, no
dependency declared yet. -/
def initState : ManifestState :=
  { settings := AosCommonCpp.settings
    generators := AosCommonCpp.generators
    declaredRequires := []
    declaredToolRequires := [] }

/-- One full evaluation of the manifest, as the external resolver performs
it: run `requirements` and `build_requirements` on a fresh object. -/
def evalManifest : Except ConanError ManifestState :=
  match AosCommonCpp.requirements initState with
  | .error e => .error e
  | .ok s => AosCommonCpp.build_requirements s

/-- The linked-requirement references declared by a full evaluation. -/
def declaredRequiresList : List String :=
  match evalManifest with
  | .ok s => s.declaredRequires
  | .error e => nomatch e

/-- The build-tool-requirement references declared by a full evaluation. -/
def declaredToolRequiresList : List String :=
  match evalManifest with
  | .ok s => s.declaredToolRequires
  | .error e => nomatch e

/-- Package name of a Conan reference string: everything before the first `/`. -/
def refName (ref : String) : String :=
  ⟨ref.data.takeWhile (fun c => c ≠ '/')⟩

/-- Version of a Conan reference string: everything after the first `/`. -/
def refVersion (ref : String) : String :=
  ⟨(ref.data.dropWhile (fun c => c ≠ '/')).drop 1⟩

/-- A reference string split into its (name, version) pair. -/
def refPair (ref : String) : String × String := (refName ref, refVersion ref)

/-- Split a character list at every occurrence of `c`. -/
def splitOnChar (c : Char) : List Char → List (List Char)
  | [] => [[]]
  | x :: xs =>
    match splitOnChar c xs, decide (x = c) with
    | r, true => [] :: r
    | [], false => [[x]]
    | y :: ys, false => (x :: y) :: ys

/-- A non-empty dotted numeric version string: one or more non-empty runs of
digits separated by dots. -/
def dottedNumeric (s : String) : Bool :=
  !s.data.isEmpty && (splitOnChar '.' s.data).all (fun p => !p.isEmpty && p.all Char.isDigit)

/-- A well-formed declared reference: exactly one `/`, a non-empty package
name on the left, a non-empty dotted numeric version on the right. -/
def wellFormedRef (ref : String) : Bool :=
  ref.data.count '/' == 1 && !(refName ref).data.isEmpty && dottedNumeric (refVersion ref)

theorem requirements_spec (s : ManifestState) :
    AosCommonCpp.requirements s =
      Except.ok { s with declaredRequires :=
        s.declaredRequires ++ ["gtest/1.14.0", "poco/1.13.2", "grpc/1.54.3"] } := by
  simp [AosCommonCpp.requirements, ConanFile.requires]

theorem build_requirements_spec (s : ManifestState) :
    AosCommonCpp.build_requirements s =
      Except.ok { s with declaredToolRequires :=
        s.declaredToolRequires ++ ["protobuf/3.21.12", "grpc/1.54.3"] } := by
  simp [AosCommonCpp.build_requirements, ConanFile.tool_requires]

theorem evalManifest_eq :
    evalManifest = Except.ok
      { settings := ["os", "compiler", "build_type", "arch"]
        generators := ["CMakeToolchain", "CMakeDeps"]
        declaredRequires := ["gtest/1.14.0", "poco/1.13.2", "grpc/1.54.3"]
        declaredToolRequires := ["protobuf/3.21.12", "grpc/1.54.3"] } := rfl

/-- C1: every evaluation of the manifest declares as linked requirements
exactly the three (name, version) pairs gtest@1.14.0, poco@1.13.2 and
grpc@1.54.3, no more and no fewer. -/
theorem c1_linked_requirements_exact :
    declaredRequiresList.map refPair =
      [("gtest", "1.14.0"), ("poco", "1.13.2"), ("grpc", "1.54.3")] := by
  decide

/-- C2: every evaluation of the manifest declares as build-tool requirements
exactly the two (name, version) pairs protobuf@3.21.12 and grpc@1.54.3, no
more and no fewer. -/
theorem c2_tool_requirements_exact :
    declaredToolRequiresList.map refPair =
      [("protobuf", "3.21.12"), ("grpc", "1.54.3")] := by
  decide

/-- C3 counterexample: the claim asserts the build-time RPC tool requirement
at 1.54.3 names a package distinct from the runtime linked RPC requirement,
but the manifest declares the very same reference `grpc/1.54.3` in both
roles: its package name `grpc` also occurs among the linked-requirement
package names. -/
theorem c3_counterexample :
    "grpc/1.54.3" ∈ declaredToolRequiresList ∧
    "grpc/1.54.3" ∈ declaredRequiresList ∧
    refName "grpc/1.54.3" ∈ declaredRequiresList.map refName := by
  decide

/-- C3 (amended): the build-time tool requirement for RPC code generation at
version 1.54.3 names the same package `grpc`, at the same version string, as
the runtime linked RPC framework requirement; the two declarations differ
only in role (tool requirement versus linked requirement), not in package
identity. -/
theorem c3_amended_same_package :
    "grpc/1.54.3" ∈ declaredToolRequiresList ∧
    "grpc/1.54.3" ∈ declaredRequiresList ∧
    refPair "grpc/1.54.3" = ("grpc", "1.54.3") := by
  decide

/-- C4: the settings axes the manifest declares, and carries unchanged
through a full evaluation, are exactly {os, compiler, build_type, arch}. -/
theorem c4_settings_exact :
    ∃ t, evalManifest = Except.ok t ∧ t.settings = AosCommonCpp.settings ∧
      ∀ x, x ∈ t.settings ↔ (x = "os" ∨ x = "compiler" ∨ x = "build_type" ∨ x = "arch") := by
  refine ⟨_, evalManifest_eq, by decide, ?_⟩
  intro x
  simp

/-- C5: the generators the manifest declares, and carries unchanged through
a full evaluation, are exactly the pair {CMakeToolchain, CMakeDeps}: one
toolchain-description generator and one dependency-path-description
generator and nothing else. -/
theorem c5_generators_exact :
    ∃ t, evalManifest = Except.ok t ∧ t.generators = AosCommonCpp.generators ∧
      t.generators.length = 2 ∧
      ∀ x, x ∈ t.generators ↔ (x = "CMakeToolchain" ∨ x = "CMakeDeps") := by
  refine ⟨_, evalManifest_eq, by decide, by decide, ?_⟩
  intro x
  simp

/-- C6: evaluation of the manifest's declarations is deterministic and
idempotent: on any two manifest objects carrying the same declared lists,
`requirements` and `build_requirements` produce identical declared
dependency lists. -/
theorem c6_evaluation_deterministic (s t : ManifestState)
    (hr : s.declaredRequires = t.declaredRequires)
    (hb : s.declaredToolRequires = t.declaredToolRequires) :
    (AosCommonCpp.requirements s).map ManifestState.declaredRequires
      = (AosCommonCpp.requirements t).map ManifestState.declaredRequires ∧
    (AosCommonCpp.build_requirements s).map ManifestState.declaredToolRequires
      = (AosCommonCpp.build_requirements t).map ManifestState.declaredToolRequires := by
  rw [requirements_spec s, requirements_spec t,
    build_requirements_spec s, build_requirements_spec t]
  simp [Except.map, hr, hb]

/-- C6 witness: two distinct fresh manifest objects with the same (empty)
declared lists evaluate to identical declared dependency lists. -/
theorem c6_evaluation_deterministic_witness :
    (AosCommonCpp.requirements initState).map ManifestState.declaredRequires
      = (AosCommonCpp.requirements { initState with settings := [] }).map
          ManifestState.declaredRequires ∧
    (AosCommonCpp.build_requirements initState).map ManifestState.declaredToolRequires
      = (AosCommonCpp.build_requirements { initState with settings := [] }).map
          ManifestState.declaredToolRequires :=
  c6_evaluation_deterministic initState { initState with settings := [] } rfl rfl

/-- C7: the manifest never mutates its own declarations: `requirements`
only appends to the linked list and `build_requirements` only appends to
the tool list; the settings and generators declarations and every
previously declared reference are unchanged afterward. -/
theorem c7_no_mutation_of_declarations (s : ManifestState) :
    AosCommonCpp.requirements s =
      Except.ok { s with declaredRequires :=
        s.declaredRequires ++ ["gtest/1.14.0", "poco/1.13.2", "grpc/1.54.3"] } ∧
    AosCommonCpp.build_requirements s =
      Except.ok { s with declaredToolRequires :=
        s.declaredToolRequires ++ ["protobuf/3.21.12", "grpc/1.54.3"] } :=
  ⟨requirements_spec s, build_requirements_spec s⟩

/-- C8: the manifest defines no error conditions of its own: on every
manifest object, `requirements` and `build_requirements` complete with a
result and never signal an error. -/
theorem c8_no_error_conditions (s : ManifestState) :
    (∃ t, AosCommonCpp.requirements s = Except.ok t) ∧
    (∃ u, AosCommonCpp.build_requirements s = Except.ok u) ∧
    (∀ e, AosCommonCpp.requirements s ≠ Except.error e) ∧
    (∀ e, AosCommonCpp.build_requirements s ≠ Except.error e) := by
  refine ⟨⟨_, requirements_spec s⟩, ⟨_, build_requirements_spec s⟩, ?_, ?_⟩ <;>
    intro e <;> exact nomatch e

/-- C9: the declared linked-requirement set and the declared
build-tool-requirement set are not disjoint: their intersection, computed
in either direction, is exactly the single reference `grpc/1.54.3`, the
same package name and version string in both roles. -/
theorem c9_intersection_is_grpc :
    declaredRequiresList.filter (fun r => declaredToolRequiresList.contains r)
      = ["grpc/1.54.3"] ∧
    declaredToolRequiresList.filter (fun r => declaredRequiresList.contains r)
      = ["grpc/1.54.3"] ∧
    refPair "grpc/1.54.3" = ("grpc", "1.54.3") := by
  decide

/-- C10: every dependency reference the manifest declares, in either list,
is a single `name/version` string with exactly one `/`, a non-empty package
name and a non-empty dotted numeric version. -/
theorem c10_references_well_formed :
    declaredRequiresList.all wellFormedRef = true ∧
    declaredToolRequiresList.all wellFormedRef = true := by
  decide
